import Mathlib

/-!
Shallow embedding of `scraper.py` (repository snmp-to-influx-python).

The embedding follows the source file function by function:

* `Device` mirrors the dataclass `Device` (all five fields are strings as
  they come from the YAML document; an empty string models a value that is
  unset or null, both of which are falsy in Python).
* `StartPollPath` mirrors the branch structure of `StartPoll`.
* `uploadToInflux` mirrors `upload_to_influx` including the fact that the
  module never imports the name `InfluxDBClientError`.
* `load_config_run` mirrors the control flow of
  `fetch_config_from_disk` / `load_config`.
* `pollDevice` and its helpers mirror the walk / get / payload loops of
  `pollDevice`.
* `SchedStep` mirrors the thread-spawning loop of `main`.
-/

namespace Scraper

/-- Python exceptions that the embedded fragments can raise. -/
inductive PyErr where
  | nameError (name : String)
  | valueError (msg : String)
  | otherError (name : String) (msg : String)
  deriving DecidableEq

/-- A rough model of Python `str(e)`; only used to build wrapper messages,
no claim depends on the exact rendering. -/
def PyErr.pyStr : PyErr → String
  | .nameError n => "NameError: name " ++ n ++ " is not defined"
  | .valueError m => m
  | .otherError n m => n ++ ": " ++ m

/-- Mirrors the dataclass `Device` (scraper.py lines 34-57).  The YAML
loader gives every field as a string; an empty string models an unset or
null value, both falsy in Python truth tests. -/
structure Device where
  hostname : String
  community : String
  ip : String
  username : String
  password : String
  deriving DecidableEq

/-- The protocol path chosen by `StartPoll`. -/
inductive PollPath where
  | v3
  | v2
  | invalidConfig
  deriving DecidableEq

/-- Mirrors the branch structure of `StartPoll` (scraper.py lines 290-296):
`if device.username:` selects SNMPv3, else `if device.community:` selects
SNMPv2, else a ValueError is raised.  Python truthiness of a string is
non-emptiness. -/
def StartPollPath (d : Device) : PollPath :=
  if d.username ≠ "" then PollPath.v3
  else if d.community ≠ "" then PollPath.v2
  else PollPath.invalidConfig

/-- Outcome of `client.write_points(payload)` inside `upload_to_influx`:
either it returns, or it raises `influxdb.exceptions.InfluxDBClientError`,
or it raises some other exception (for example a transport error from
`requests`). -/
inductive WriteResult where
  | success
  | influxClientError (msg : String)
  | otherException (name : String) (msg : String)
  deriving DecidableEq

/-- Mirrors `upload_to_influx` (scraper.py lines 270-287).  The module
imports only `InfluxDBClient` from `influxdb`, so the name
`InfluxDBClientError` in the except clause is unbound at module scope.
When `write_points` raises, the interpreter evaluates the except clause
expression to test the match, and that evaluation raises
`NameError: name InfluxDBClientError is not defined`, which escapes the
function (with the original exception as context).  Only the successful
write reaches `return True`. -/
def uploadToInflux (write : WriteResult) : Except PyErr Bool :=
  match write with
  | WriteResult.success => Except.ok true
  | WriteResult.influxClientError _ => Except.error (PyErr.nameError "InfluxDBClientError")
  | WriteResult.otherException _ _ => Except.error (PyErr.nameError "InfluxDBClientError")

/-- The possible shapes of the configuration file as seen by
`fetch_config_from_disk` and `load_config`:  the file can be absent, its
text can fail `yaml.safe_load`, or the parsed document can fail or pass
the `Config.from_dict` lint (KeyError / TypeError on missing keys). -/
inductive ConfigFile where
  | missing
  | unparseableYaml
  | parsedMissingKeys
  | parsedValid
  deriving DecidableEq

/-- How a call of `load_config` ends at process level. -/
inductive ProcessOutcome where
  | uncaught (excName : String)
  | exited (status : Nat)
  | returned
  deriving DecidableEq

/-- Mirrors `load_config` together with `fetch_config_from_disk`
(scraper.py lines 148-183).  A missing file makes
`fetch_config_from_disk` raise `ConfigFileNotFoundError`; `load_config`
catches only `yaml.YAMLError` (then `sys.exit(1)`) and
`KeyError` / `TypeError` from the lint (then `sys.exit(2)`), so the
file-not-found exception propagates uncaught. -/
def load_config_run : ConfigFile → ProcessOutcome
  | ConfigFile.missing => ProcessOutcome.uncaught "ConfigFileNotFoundError"
  | ConfigFile.unparseableYaml => ProcessOutcome.exited 1
  | ConfigFile.parsedMissingKeys => ProcessOutcome.exited 2
  | ConfigFile.parsedValid => ProcessOutcome.returned

/-- The process exit status visible to the parent process.  CPython
terminates with status 1 when an exception reaches the top level
uncaught, and with status n after `sys.exit(n)`. -/
def processExitStatus : ProcessOutcome → Option Nat
  | ProcessOutcome.uncaught _ => some 1
  | ProcessOutcome.exited n => some n
  | ProcessOutcome.returned => none

/-- Mirrors `datetime.datetime.now()` on line 258 of scraper.py, at second
precision: the local wall clock reading equals the UTC instant of the
poll plus the UTC offset of the host timezone (both counted in seconds). -/
def pyDatetimeNowSeconds (utcNow tzOffset : Int) : Int := utcNow + tzOffset

/-- The instant denoted by the emitted timestamp string.  Line 258 formats
the local reading with `strftime` and a literal `Z` suffix; a second
precision reading suffixed with `Z` denotes that clock reading as a UTC
instant, so the denoted instant is exactly the local reading. -/
def emittedTimestampDenotes (utcNow tzOffset : Int) : Int :=
  pyDatetimeNowSeconds utcNow tzOffset

/-- One row returned by `session.walk`: an easysnmp `SNMPVariable` with the
full object identifier, the `oid_index` attribute (possibly empty) and the
string value. -/
structure WalkRow where
  oid : String
  oid_index : String
  value : String
  deriving DecidableEq

/-- An open easysnmp session, abstracted to the two operations
`pollDevice` uses: the walk of the interface-name column and the scalar
`get`.  `get` is total because easysnmp sessions are created with the
default `abort_on_nonexistent=False`, under which a get of a missing
instance returns a variable whose value is the string `NOSUCHINSTANCE`
instead of raising. -/
structure Session where
  walkIfName : List WalkRow
  get : String → String

/-- Mirrors `interface.oid_index if interface.oid_index else
interface.oid.split(".")[-1]` (scraper.py lines 239-241); an empty
`oid_index` is falsy. -/
def rowIndex (r : WalkRow) : String :=
  if r.oid_index ≠ "" then r.oid_index else (r.oid.splitOn ".").getLastD ""

/-- Python dict assignment `d[k] = v`: an existing key keeps its position
and gets the new value, a new key is appended. -/
def dictUpsert (l : List (String × String)) (k v : String) : List (String × String) :=
  match l with
  | [] => [(k, v)]
  | (k0, v0) :: rest =>
      if k0 = k then (k, v) :: rest else (k0, v0) :: dictUpsert rest k v

/-- Python dict lookup `d[k]` as an option. -/
def alistLookup (l : List (String × String)) (k : String) : Option String :=
  match l with
  | [] => none
  | (k0, v0) :: rest => if k0 = k then some v0 else alistLookup rest k

/-- Mirrors the first loop of `pollDevice` (scraper.py lines 236-242): the
dict `interfaces` is keyed by `interface.value` (the interface name) and
stores the row index; a repeated name overwrites the stored index. -/
def buildInterfaces (rows : List WalkRow) : List (String × String) :=
  rows.foldl (fun acc r => dictUpsert acc r.value (rowIndex r)) []

/-- OID constants of scraper.py lines 215-231. -/
def ifXEntry : String := "1.3.6.1.2.1.31.1.1.1"

def ifHCInOctets : String := "6"

def ifHCOutOctets : String := "10"

def ifName : String := "1"

def ifTable : String := "1.3.6.1.2.1.2.2.1"

def ifInErrors : String := "14"

def ifOutErrors : String := "20"

def ifDescr : String := "2"

def oid_ifName : String := ifXEntry ++ "." ++ ifName

def oid_ifHCInOctets : String := ifXEntry ++ "." ++ ifHCInOctets

def oid_ifHCOutOctets : String := ifXEntry ++ "." ++ ifHCOutOctets

def oid_ifInErrors : String := ifTable ++ "." ++ ifInErrors

def oid_ifOutErrors : String := ifTable ++ "." ++ ifOutErrors

def oid_ifDescr : String := ifTable ++ "." ++ ifDescr

/-- The final contents of one entry of the `interfaces` dict after the
second loop of `pollDevice` (scraper.py lines 244-247) has run: one get
per entry of `_OIDS`, at the OID suffixed with the stored row index. -/
structure IfVals where
  v_ifHCInOctets : String
  v_ifHCOutOctets : String
  v_ifInErrors : String
  v_ifOutErrors : String
  v_ifDescr : String
  deriving DecidableEq

/-- The five gets of the second loop for one interface entry with stored
index `idx`. -/
def fetchVals (get : String → String) (idx : String) : IfVals :=
  { v_ifHCInOctets := get (oid_ifHCInOctets ++ "." ++ idx)
    v_ifHCOutOctets := get (oid_ifHCOutOctets ++ "." ++ idx)
    v_ifInErrors := get (oid_ifInErrors ++ "." ++ idx)
    v_ifOutErrors := get (oid_ifOutErrors ++ "." ++ idx)
    v_ifDescr := get (oid_ifDescr ++ "." ++ idx) }

/-- The numeric value of a decimal digit character. -/
def digitVal? (c : Char) : Option Nat :=
  if '0' ≤ c ∧ c ≤ '9' then some (c.toNat - '0'.toNat) else none

/-- Reads a non-empty run of decimal digits as a number; any non-digit
character means failure. -/
def digitsToNat? : List Char → Nat → Option Nat
  | [], acc => some acc
  | c :: cs, acc =>
      match digitVal? c with
      | some d => digitsToNat? cs (acc * 10 + d)
      | none => none

/-- Models Python `int(str)` on the value domain of SNMP counter strings:
an optional minus sign followed by decimal digits parses to the integer,
anything else (in particular the string `NOSUCHINSTANCE` and the empty
string) raises ValueError, modelled as `none`. -/
def pyInt (s : String) : Option Int :=
  match s.data with
  | [] => none
  | '-' :: cs =>
      if cs = [] then none
      else (digitsToNat? cs 0).map (fun n => -(n : Int))
  | cs => (digitsToNat? cs 0).map (fun n => (n : Int))

/-- One element of the `dbpayload` list (scraper.py lines 250-266). -/
structure MetricPoint where
  measurement : String
  tag_host : String
  tag_interface : String
  tag_interface_description : String
  time : String
  ifin : Int
  ifout : Int
  ifinerr : Int
  ifouterr : Int
  deriving DecidableEq

/-- Builds the point dict of scraper.py lines 251-265 for one interface.
The four `int(...)` conversions can raise ValueError on a non-numeric
string (in particular on `NOSUCHINSTANCE`); `none` models that raise. -/
def mkPoint (hostname name now : String) (v : IfVals) : Option MetricPoint := do
  let a ← pyInt v.v_ifHCInOctets
  let b ← pyInt v.v_ifHCOutOctets
  let c ← pyInt v.v_ifInErrors
  let d ← pyInt v.v_ifOutErrors
  pure { measurement := "interface_stats"
         tag_host := hostname
         tag_interface := name
         tag_interface_description := v.v_ifDescr
         time := now
         ifin := a
         ifout := b
         ifinerr := c
         ifouterr := d }

/-- How one call of `pollDevice` ends. -/
inductive PollOutcome where
  | nonePublished
  | published (payload : List MetricPoint) (uploadResult : Bool)
  | valueErrorRaised (name : String)
  deriving DecidableEq

/-- Mirrors `pollDevice` (scraper.py lines 234-267).  After the walk loop
and the get loop, the payload loop (lines 249-267) builds a single-point
payload for the current dict entry and executes
`return upload_to_influx(dbpayload)` inside the loop body, so the
function returns during the first iteration; with an empty dict the loop
body never runs and the function falls off the end (returns None).
`upload` abstracts `upload_to_influx` for the one payload submitted;
`now` abstracts the formatted timestamp of line 258. -/
def pollDevice (session : Session) (hostname now : String)
    (upload : List MetricPoint → Bool) : PollOutcome :=
  let interfaces := buildInterfaces session.walkIfName
  let filled := interfaces.map (fun p => (p.1, fetchVals session.get p.2))
  match filled with
  | [] => PollOutcome.nonePublished
  | (name, vals) :: _ =>
      match mkPoint hostname name now vals with
      | some pt => PollOutcome.published [pt] (upload [pt])
      | none => PollOutcome.valueErrorRaised name

/-- Builds a session from an explicit map of full OIDs to values, with the
easysnmp default behaviour for a missing instance: `get` returns the
string `NOSUCHINSTANCE`. -/
def Session.ofOidMap (walk : List WalkRow) (m : List (String × String)) : Session :=
  { walkIfName := walk
    get := fun oid => (alistLookup m oid).getD "NOSUCHINSTANCE" }

/-- The module-level global namespace of scraper.py binds no variable
named `hostname`; the bare name `hostname` inside `SNMPpollv3` therefore
resolves to nothing. -/
def moduleGlobal_hostname : Option String := none

/-- Mirrors `SNMPpollv3` (scraper.py lines 197-212).  Inside the try
block, the call `pollDevice(session, hostname)` first evaluates the bare
name `hostname`, which raises NameError before `pollDevice` runs; the
blanket `except Exception` wraps every exception of the body in a
ValueError.  `mkSession` abstracts the `Session(...)` constructor and
`runPoll` abstracts `pollDevice`. -/
def SNMPpollv3 (mkSession : Except PyErr Session)
    (runPoll : Session → String → Except PyErr (Option Bool)) :
    Except PyErr (Option Bool) :=
  let body : Except PyErr (Option Bool) :=
    match mkSession with
    | Except.error e => Except.error e
    | Except.ok session =>
        match moduleGlobal_hostname with
        | none => Except.error (PyErr.nameError "hostname")
        | some h => runPoll session h
  match body with
  | Except.ok r => Except.ok r
  | Except.error e =>
      Except.error (PyErr.valueError ("ERROR - SNMPv3 error" ++ e.pyStr))

/-- The characters after the last space, reversed accumulator style. -/
def trailingTokenAux : List Char → List Char → List Char
  | [], cur => cur.reverse
  | c :: cs, cur =>
      if c = ' ' then trailingTokenAux cs []
      else trailingTokenAux cs (c :: cur)

/-- Formalisation of the tag rule as the SPEC words it (not of the code):
the trailing token of the description after splitting on whitespace; a
description without whitespace is its own trailing token. -/
def specTrailingToken (s : String) : String :=
  String.mk (trailingTokenAux s.data [])

/-- One step of the process modelled at the level of running `StartPoll`
threads per device hostname.  `tick` is one iteration of the `while True`
loop of `main` (scraper.py lines 303-309): it creates and starts one
thread per entry of the device list, unconditionally — the loop inspects
no thread list and keeps no per-device in-flight state.  `finish` is one
running poll thread terminating. -/
inductive SchedStep (devices : List String) : (String → Nat) → (String → Nat) → Prop where
  | tick (s : String → Nat) :
      SchedStep devices s (fun h => s h + devices.count h)
  | finish (s : String → Nat) (d : String) (hd : 0 < s d) :
      SchedStep devices s (fun h => if h = d then s h - 1 else s h)

/-- The states reachable by the scheduler loop from the start state with
no poll in flight. -/
def SchedReachable (devices : List String) (s : String → Nat) : Prop :=
  Relation.ReflTransGen (SchedStep devices) (fun _ => 0) s

/-- Concrete agent for C1: two interfaces, rows for both indices in all
five counter and description tables. -/
def c1Session : Session := Session.ofOidMap
  [⟨oid_ifName ++ ".1", "1", "eth0"⟩, ⟨oid_ifName ++ ".2", "2", "eth1"⟩]
  [(oid_ifHCInOctets ++ ".1", "100"), (oid_ifHCOutOctets ++ ".1", "200"),
   (oid_ifInErrors ++ ".1", "1"), (oid_ifOutErrors ++ ".1", "2"),
   (oid_ifDescr ++ ".1", "eth0 long"),
   (oid_ifHCInOctets ++ ".2", "300"), (oid_ifHCOutOctets ++ ".2", "400"),
   (oid_ifInErrors ++ ".2", "3"), (oid_ifOutErrors ++ ".2", "4"),
   (oid_ifDescr ++ ".2", "eth1 long")]

/-- The point `pollDevice` builds for the first interface of `c1Session`. -/
def c1PointEth0 : MetricPoint :=
  { measurement := "interface_stats"
    tag_host := "r1"
    tag_interface := "eth0"
    tag_interface_description := "eth0 long"
    time := "2024-01-01T00:00:00Z"
    ifin := 100
    ifout := 200
    ifinerr := 1
    ifouterr := 2 }

/-- Concrete agent for C2: the five tables have pairwise disjoint index
sets — the name table has only index 1, the four counter and description
tables only indices 2, 3, 4, 5 and 6 respectively. -/
def c2Session : Session := Session.ofOidMap
  [⟨oid_ifName ++ ".1", "1", "eth0"⟩]
  [(oid_ifHCInOctets ++ ".2", "100"), (oid_ifHCOutOctets ++ ".3", "200"),
   (oid_ifInErrors ++ ".4", "1"), (oid_ifOutErrors ++ ".5", "2"),
   (oid_ifDescr ++ ".6", "desc")]

/-- Concrete agent for C7: one interface whose name value carries a vendor
prefix separated by whitespace. -/
def c7Session : Session := Session.ofOidMap
  [⟨oid_ifName ++ ".1", "1", "vendor label Gi0/1"⟩]
  [(oid_ifHCInOctets ++ ".1", "1000000"), (oid_ifHCOutOctets ++ ".1", "2000000"),
   (oid_ifInErrors ++ ".1", "0"), (oid_ifOutErrors ++ ".1", "0"),
   (oid_ifDescr ++ ".1", "vendor label Gi0/1")]

/-- The point `pollDevice` builds for the single interface of
`c7Session`. -/
def c7Point : MetricPoint :=
  { measurement := "interface_stats"
    tag_host := "r1"
    tag_interface := "vendor label Gi0/1"
    tag_interface_description := "vendor label Gi0/1"
    time := "2024-01-01T00:00:00Z"
    ifin := 1000000
    ifout := 2000000
    ifinerr := 0
    ifouterr := 0 }

end Scraper

namespace Scraper

theorem alistLookup_dictUpsert (l : List (String × String)) (k v k' : String) :
    alistLookup (dictUpsert l k v) k' = if k = k' then some v else alistLookup l k' := by
  induction l with
  | nil =>
      by_cases h : k = k' <;> simp [dictUpsert, alistLookup, h]
  | cons p rest ih =>
      obtain ⟨k0, v0⟩ := p
      by_cases h0 : k0 = k
      · subst h0
        by_cases h : k0 = k' <;> simp [dictUpsert, alistLookup, h]
      · by_cases h : k0 = k'
        · subst h
          have hk : k ≠ k0 := fun hkk => h0 hkk.symm
          simp [dictUpsert, alistLookup, h0, hk]
        · simp [dictUpsert, alistLookup, h0, h, ih]

theorem keys_dictUpsert (l : List (String × String)) (k v : String) :
    (dictUpsert l k v).map Prod.fst =
      if k ∈ l.map Prod.fst then l.map Prod.fst else l.map Prod.fst ++ [k] := by
  induction l with
  | nil => simp [dictUpsert]
  | cons p rest ih =>
      obtain ⟨k0, v0⟩ := p
      by_cases h0 : k0 = k
      · subst h0
        simp [dictUpsert]
      · by_cases hm : k ∈ rest.map Prod.fst <;>
          simp [dictUpsert, h0, ih, hm, Ne.symm h0]

theorem nodup_keys_dictUpsert (l : List (String × String)) (k v : String)
    (h : (l.map Prod.fst).Nodup) : ((dictUpsert l k v).map Prod.fst).Nodup := by
  rw [keys_dictUpsert]
  by_cases hm : k ∈ l.map Prod.fst
  · simpa [hm] using h
  · simp only [hm, if_false]
    refine List.Nodup.append h (List.nodup_singleton k) ?_
    intro a ha hb
    rw [List.mem_singleton] at hb
    subst hb
    exact hm ha

theorem nodup_keys_buildInterfaces (rows : List WalkRow) :
    ((buildInterfaces rows).map Prod.fst).Nodup := by
  suffices h : ∀ (rs : List WalkRow) (acc : List (String × String)),
      (acc.map Prod.fst).Nodup →
      ((rs.foldl (fun a r => dictUpsert a r.value (rowIndex r)) acc).map Prod.fst).Nodup by
    exact h rows [] (by simp)
  intro rs
  induction rs with
  | nil => intro acc hacc; simpa using hacc
  | cons r rest ih =>
      intro acc hacc
      exact ih _ (nodup_keys_dictUpsert _ _ _ hacc)

theorem alistLookup_buildAux (rows : List WalkRow) :
    ∀ (acc : List (String × String)) (name : String),
      alistLookup (rows.foldl (fun a r => dictUpsert a r.value (rowIndex r)) acc) name =
        match (rows.filter (fun r => r.value == name)).getLast? with
        | some r0 => some (rowIndex r0)
        | none => alistLookup acc name := by
  induction rows with
  | nil => intro acc name; simp
  | cons r rest ih =>
      intro acc name
      rw [List.foldl_cons, ih]
      by_cases hv : r.value = name
      · cases hfr : rest.filter (fun r => r.value == name) with
        | nil => simp [List.filter_cons, hv, hfr, alistLookup_dictUpsert]
        | cons a t =>
            simp [List.filter_cons, hv, hfr, List.getLast?_cons_cons]
            cases hgl : (a :: t).getLast? with
            | none => exact absurd (List.getLast?_eq_none_iff.mp hgl) (by simp)
            | some x => rfl
      · cases hfr : rest.filter (fun r => r.value == name) with
        | nil => simp [List.filter_cons, hv, hfr, alistLookup_dictUpsert]
        | cons a t =>
            simp [List.filter_cons, hv, hfr]
            cases hgl : (a :: t).getLast? with
            | none => exact absurd (List.getLast?_eq_none_iff.mp hgl) (by simp)
            | some x => rfl

/-- C10: the record map built by the walk loop of `pollDevice` is keyed by
the interface name (the walk row value): the keys are pairwise distinct,
and the stored row index for a name is the one of the LAST walk row
carrying that name — a later row with an equal name overwrites the
earlier entry. -/
theorem c10_keyed_by_name_last_wins (rows : List WalkRow) :
    ((buildInterfaces rows).map Prod.fst).Nodup ∧
    ∀ name, alistLookup (buildInterfaces rows) name
        = ((rows.filter (fun r => r.value == name)).getLast?).map rowIndex := by
  refine ⟨nodup_keys_buildInterfaces rows, ?_⟩
  intro name
  have h := alistLookup_buildAux rows [] name
  rw [buildInterfaces, h]
  cases (rows.filter (fun r => r.value == name)).getLast? <;> simp [alistLookup]

theorem mem_keys_buildAux (rows : List WalkRow) :
    ∀ (acc : List (String × String)) (x : String),
      x ∈ (rows.foldl (fun a r => dictUpsert a r.value (rowIndex r)) acc).map Prod.fst →
      x ∈ acc.map Prod.fst ∨ ∃ r ∈ rows, r.value = x := by
  induction rows with
  | nil => intro acc x h; exact Or.inl h
  | cons r rest ih =>
      intro acc x h
      rcases ih _ x h with h1 | h2
      · rw [keys_dictUpsert] at h1
        by_cases hm : r.value ∈ acc.map Prod.fst
        · rw [if_pos hm] at h1
          exact Or.inl h1
        · rw [if_neg hm, List.mem_append, List.mem_singleton] at h1
          rcases h1 with h1 | h1
          · exact Or.inl h1
          · exact Or.inr ⟨r, List.mem_cons_self r rest, h1.symm⟩
      · obtain ⟨r0, hr0, hv⟩ := h2
        exact Or.inr ⟨r0, List.mem_cons_of_mem r hr0, hv⟩

theorem mem_keys_buildInterfaces (rows : List WalkRow) (x : String)
    (h : x ∈ (buildInterfaces rows).map Prod.fst) : ∃ r ∈ rows, r.value = x := by
  rcases mem_keys_buildAux rows [] x (by simpa [buildInterfaces] using h) with h1 | h2
  · simp at h1
  · exact h2

theorem mkPoint_fields (hostname name now : String) (v : IfVals) (pt : MetricPoint)
    (h : mkPoint hostname name now v = some pt) :
    pt.tag_interface = name ∧ pt.tag_host = hostname ∧
    pt.tag_interface_description = v.v_ifDescr ∧ pt.time = now := by
  cases ha : pyInt v.v_ifHCInOctets with
  | none => simp [mkPoint, ha] at h
  | some a =>
      cases hb : pyInt v.v_ifHCOutOctets with
      | none => simp [mkPoint, ha, hb] at h
      | some b =>
          cases hc : pyInt v.v_ifInErrors with
          | none => simp [mkPoint, ha, hb, hc] at h
          | some c =>
              cases hd : pyInt v.v_ifOutErrors with
              | none => simp [mkPoint, ha, hb, hc, hd] at h
              | some d =>
                  simp [mkPoint, ha, hb, hc, hd, Option.bind_eq_bind] at h
                  subst h
                  exact ⟨rfl, rfl, rfl, rfl⟩

theorem mkPoint_none_of_hcIn (hostname name now : String) (v : IfVals)
    (h : pyInt v.v_ifHCInOctets = none) :
    mkPoint hostname name now v = none := by
  simp [mkPoint, h]

/-- C4: for a device with both username and community non-empty,
`StartPoll` takes the SNMPv3 branch (username wins); with username unset
(falsy) and community non-empty it takes the SNMPv2 branch. -/
theorem c4_username_precedence (d : Device) :
    (d.username ≠ "" → d.community ≠ "" → StartPollPath d = PollPath.v3) ∧
    (d.username = "" → d.community ≠ "" → StartPollPath d = PollPath.v2) := by
  constructor
  · intro hu _
    simp [StartPollPath, hu]
  · intro hu hc
    simp [StartPollPath, hu, hc]

/-- Witness for C4 at two concrete devices. -/
theorem c4_username_precedence_witness :
    StartPollPath ⟨"r1", "public", "10.0.0.1", "admin", "pw"⟩ = PollPath.v3 ∧
    StartPollPath ⟨"r1", "public", "10.0.0.1", "", ""⟩ = PollPath.v2 :=
  ⟨(c4_username_precedence ⟨"r1", "public", "10.0.0.1", "admin", "pw"⟩).1
      (by decide) (by decide),
   (c4_username_precedence ⟨"r1", "public", "10.0.0.1", "", ""⟩).2
      rfl (by decide)⟩

/-- C5 (code evaluated at the failing input): when `write_points` raises a
database-side `InfluxDBClientError`, `upload_to_influx` does not return a
failure result — evaluating its except clause raises NameError for the
unimported name `InfluxDBClientError`, and that exception escapes the
function; only a successful write returns (True). -/
theorem c5_write_failure_raises_name_error :
    uploadToInflux (WriteResult.influxClientError "rejected point")
        = Except.error (PyErr.nameError "InfluxDBClientError") ∧
    uploadToInflux (WriteResult.otherException "ConnectionError" "refused")
        = Except.error (PyErr.nameError "InfluxDBClientError") ∧
    uploadToInflux WriteResult.success = Except.ok true :=
  ⟨rfl, rfl, rfl⟩

/-- C6 counterexample: a missing configuration file and an unparseable
document terminate the process with the same exit status 1, so the three
failure classes are not distinguishable by exit status as the claim
states. -/
theorem c6_missing_file_status_collides :
    processExitStatus (load_config_run ConfigFile.missing)
        = processExitStatus (load_config_run ConfigFile.unparseableYaml) ∧
    processExitStatus (load_config_run ConfigFile.missing) = some 1 :=
  ⟨rfl, rfl⟩

/-- C6 amended: unparseable YAML exits with status 1 and a document with
missing required keys exits with status 2 (these two are distinguishable);
a missing file raises ConfigFileNotFoundError, which no caller catches,
terminating the interpreter with status 1 — the same status as the
unparseable case. -/
theorem c6_exit_statuses :
    load_config_run ConfigFile.unparseableYaml = ProcessOutcome.exited 1 ∧
    load_config_run ConfigFile.parsedMissingKeys = ProcessOutcome.exited 2 ∧
    load_config_run ConfigFile.missing
        = ProcessOutcome.uncaught "ConfigFileNotFoundError" ∧
    processExitStatus (load_config_run ConfigFile.unparseableYaml)
        ≠ processExitStatus (load_config_run ConfigFile.parsedMissingKeys) ∧
    processExitStatus (load_config_run ConfigFile.missing)
        = processExitStatus (load_config_run ConfigFile.unparseableYaml) := by
  refine ⟨rfl, rfl, rfl, ?_, rfl⟩
  decide

/-- C8 (code evaluated at the failing input): on a host whose timezone is
UTC+01:00 (offset 3600 s), a poll at UTC instant 0 produces a timestamp
string that denotes instant 3600, not the poll instant — line 258 formats
the local wall clock reading of `datetime.now()` with a literal Z (UTC)
suffix. -/
theorem c8_timestamp_shifted_by_offset :
    emittedTimestampDenotes 0 3600 = 3600 ∧ emittedTimestampDenotes 0 3600 ≠ 0 := by
  constructor
  · rfl
  · decide

theorem ofOidMap_walk (walk : List WalkRow) (m : List (String × String)) :
    (Session.ofOidMap walk m).walkIfName = walk := rfl

theorem ofOidMap_get (walk : List WalkRow) (m : List (String × String)) (oid : String) :
    (Session.ofOidMap walk m).get oid = (alistLookup m oid).getD "NOSUCHINSTANCE" := rfl

/-- C7 amended: the interface tag of every published point is the value of
some row of the interface-name walk, used verbatim — it is the dict key of
the record, which is the raw `interface.value`; `pollDevice` applies no
whitespace splitting to it. -/
theorem c7_tag_is_verbatim_walk_value (s : Session) (hostname now : String)
    (upload : List MetricPoint → Bool) (payload : List MetricPoint) (res : Bool)
    (h : pollDevice s hostname now upload = PollOutcome.published payload res) :
    ∀ pt ∈ payload, ∃ r ∈ s.walkIfName, pt.tag_interface = r.value := by
  intro pt hpt
  simp only [pollDevice] at h
  cases hbi : buildInterfaces s.walkIfName with
  | nil => rw [hbi] at h; simp at h
  | cons p rest =>
      obtain ⟨name, idx⟩ := p
      rw [hbi] at h
      simp only [List.map_cons] at h
      cases hmk : mkPoint hostname name now (fetchVals s.get idx) with
      | none => rw [hmk] at h; simp at h
      | some pt0 =>
          rw [hmk] at h
          injection h with h1 h2
          rw [← h1, List.mem_singleton] at hpt
          have htag := (mkPoint_fields hostname name now _ pt0 hmk).1
          subst hpt
          have hnm : name ∈ (buildInterfaces s.walkIfName).map Prod.fst := by
            rw [hbi]; simp
          obtain ⟨r, hr, hv⟩ := mem_keys_buildInterfaces s.walkIfName name hnm
          exact ⟨r, hr, by rw [htag, ← hv]⟩

/-- Witness for C7 amended: the point published for `c7Session` carries
the verbatim walk value as its interface tag. -/
theorem c7_tag_is_verbatim_walk_value_witness :
    ∃ r ∈ c7Session.walkIfName, c7Point.tag_interface = r.value :=
  c7_tag_is_verbatim_walk_value c7Session "r1" "2024-01-01T00:00:00Z"
    (fun _ => true) [c7Point] true (by decide) c7Point (by simp)

/-- C7 counterexample: a published point whose interface tag is the whole
description `vendor label Gi0/1`, not the trailing whitespace token
`Gi0/1` that the claim requires. -/
theorem c7_tag_not_trailing_token :
    pollDevice c7Session "r1" "2024-01-01T00:00:00Z" (fun _ => true)
        = PollOutcome.published [c7Point] true ∧
    specTrailingToken c7Point.tag_interface_description = "Gi0/1" ∧
    c7Point.tag_interface ≠ specTrailingToken c7Point.tag_interface_description := by
  refine ⟨by decide, by decide, by decide⟩

/-- C2 amended: there is no five-walk intersection join.  `pollDevice`
creates one record per row of the interface-name walk; for a record whose
index has no row in the high-capacity in-octets table, the get returns
`NOSUCHINSTANCE` and the `int(...)` conversion while building the payload
raises ValueError — the record is not dropped and the poll does not
return an empty result. -/
theorem c2_missing_table_entry_raises (walk : List WalkRow)
    (m : List (String × String)) (hostname now : String)
    (upload : List MetricPoint → Bool) (name idx : String)
    (rest : List (String × String))
    (hb : buildInterfaces walk = (name, idx) :: rest)
    (hm : alistLookup m (oid_ifHCInOctets ++ "." ++ idx) = none) :
    pollDevice (Session.ofOidMap walk m) hostname now upload
        = PollOutcome.valueErrorRaised name := by
  have hget : (Session.ofOidMap walk m).get (oid_ifHCInOctets ++ "." ++ idx)
      = "NOSUCHINSTANCE" := by
    rw [ofOidMap_get, hm]
    rfl
  have hnone : mkPoint hostname name now
      (fetchVals (Session.ofOidMap walk m).get idx) = none := by
    apply mkPoint_none_of_hcIn
    show pyInt ((Session.ofOidMap walk m).get (oid_ifHCInOctets ++ "." ++ idx)) = none
    rw [hget]
    decide
  simp only [pollDevice, ofOidMap_walk]
  rw [hb]
  simp only [List.map_cons]
  rw [hnone]

/-- Witness for C2 amended at a concrete disjoint instance. -/
theorem c2_missing_table_entry_raises_witness :
    pollDevice (Session.ofOidMap [⟨oid_ifName ++ ".1", "1", "eth0"⟩]
        [(oid_ifHCInOctets ++ ".2", "100")]) "r1" "t" (fun _ => true)
        = PollOutcome.valueErrorRaised "eth0" :=
  c2_missing_table_entry_raises _ _ _ _ _ "eth0" "1" [] (by decide) (by decide)

/-- C2 counterexample: on five pairwise disjoint table walks the poll does
not yield an empty sequence — it raises a ValueError while converting the
`NOSUCHINSTANCE` value of the first record. -/
theorem c2_disjoint_tables_raise_value_error :
    pollDevice c2Session "r1" "2024-01-01T00:00:00Z" (fun _ => true)
        = PollOutcome.valueErrorRaised "eth0" ∧
    pollDevice c2Session "r1" "2024-01-01T00:00:00Z" (fun _ => true)
        ≠ PollOutcome.nonePublished := by
  refine ⟨by decide, by decide⟩

/-- C1 (code evaluated at the failing input): for an agent exposing two
complete interfaces, the payload loop of `pollDevice` returns during its
first iteration — exactly one upload call is made and its payload is the
single point of the first interface; the second interface joined from the
walk contributes no point and is silently dropped. -/
theorem c1_only_first_interface_point_uploaded :
    pollDevice c1Session "r1" "2024-01-01T00:00:00Z" (fun _ => true)
        = PollOutcome.published [c1PointEth0] true ∧
    (buildInterfaces c1Session.walkIfName).map Prod.fst = ["eth0", "eth1"] ∧
    c1PointEth0.tag_interface = "eth0" := by
  refine ⟨by decide, by decide, rfl⟩

/-- C3 counterexample: the tick loop of `main` spawns a poll thread for
every device on every tick without consulting in-flight state, so two
consecutive ticks with no completion in between reach a state with two
concurrent polls of device r1 — the claim that every reachable state has
at most one in-flight poll per device is false. -/
theorem c3_two_concurrent_polls_reachable :
    ¬ (∀ s, SchedReachable ["r1"] s → ∀ d, s d ≤ 1) := by
  intro hcl
  have r0 : SchedReachable ["r1"] (fun _ => 0) := Relation.ReflTransGen.refl
  have r1 := Relation.ReflTransGen.tail r0 (SchedStep.tick (fun _ => 0))
  have r2 := Relation.ReflTransGen.tail r1
    (SchedStep.tick (fun h => (fun _ : String => 0) h + List.count h ["r1"]))
  have h2 := hcl _ r2 "r1"
  simp [List.count_cons] at h2

/-- C3 amended: `main` keeps no per-device in-flight state and never skips
a tick, so the number of concurrent polls of one device is unbounded: for
every n some reachable scheduler state has n in-flight polls of the same
device. -/
theorem c3_inflight_polls_unbounded (d : String) (n : Nat) :
    ∃ s, SchedReachable [d] s ∧ s d = n := by
  induction n with
  | zero => exact ⟨fun _ => 0, Relation.ReflTransGen.refl, rfl⟩
  | succ k ih =>
      obtain ⟨s, hs, hk⟩ := ih
      refine ⟨fun h => s h + List.count h [d],
        Relation.ReflTransGen.tail hs (SchedStep.tick s), ?_⟩
      simp [hk, List.count_cons]

/-- C9: whenever the SNMPv3 session constructor succeeds, `SNMPpollv3`
raises a ValueError wrapping the NameError for the unbound name
`hostname`, independently of what `pollDevice` would do (so independently
of device reachability), and it never returns successfully — no device on
the SNMPv3 path ever publishes a point. -/
theorem c9_snmpv3_always_value_error (sess : Session)
    (runPoll runPoll2 : Session → String → Except PyErr (Option Bool)) :
    SNMPpollv3 (Except.ok sess) runPoll
        = Except.error (PyErr.valueError
            ("ERROR - SNMPv3 error" ++ PyErr.pyStr (PyErr.nameError "hostname"))) ∧
    SNMPpollv3 (Except.ok sess) runPoll = SNMPpollv3 (Except.ok sess) runPoll2 ∧
    ∀ r : Option Bool, SNMPpollv3 (Except.ok sess) runPoll ≠ Except.ok r := by
  refine ⟨rfl, rfl, ?_⟩
  intro r h
  exact Except.noConfusion h

end Scraper
